import Mathlib

/-
Verification of the credit-card statement ETL pipeline.

Shallow embedding of the Python sources:
  - src/etl.py      : ingestion, date/country normalization, assembly cleanup
  - src/refine.py   : card-identity resolution, channel tagging, merchant
                      cleaning, transaction-type classification
  - src/db_to_RFManalysis.py : hybrid merchant lookup/regex classification

Conventions used throughout the embedding:
  - pandas NaN in a float column is modelled as `none` in `Option ℚ`;
    comparisons against NaN are false, exactly as in pandas.
  - string columns are modelled as `String`; the refine stage coerces NaN
    to the empty string before any of the modelled logic runs, so the empty
    string plays the role of "unset" for string fields.
  - a compiled regular-expression test is modelled as an oracle of type
    `String → Bool` (the rule sets are configuration data, not code);
    fixed literal patterns appearing in the code itself (such as the
    `代收|手續費|運費` exclusion alternation) are modelled exactly as
    substring tests.
  - fallible operations return `Option`; a caught Python exception is `none`.
-/

namespace CreditCardETL

/-- Boolean substring test on character lists: Python `needle in hay`. -/
def containsSubList (needle : List Char) : List Char → Bool
  | [] => needle.isEmpty
  | c :: rest => needle.isPrefixOf (c :: rest) || containsSubList needle rest

/-- Python `needle in hay` on strings (empty needle is contained in anything). -/
def containsSub (hay needle : String) : Bool :=
  containsSubList needle.toList hay.toList

/-- Python `s.replace(' ', '')`: remove every space character. -/
def removeSpaces (s : String) : String :=
  String.mk (s.toList.filter (fun c => c ≠ ' '))

/-- Whitespace test used by Python `str.strip`. -/
def wsChar (c : Char) : Bool := c.isWhitespace

/-- Python `s.strip()`: drop leading and trailing whitespace.  Implemented
on the character list so that it evaluates by kernel reduction. -/
def pyStrip (s : String) : String :=
  String.mk ((((s.toList).dropWhile wsChar).reverse.dropWhile wsChar).reverse)

/-- Python `c in s` for a single character. -/
def strContainsChar (s : String) (c : Char) : Bool := (s.toList).contains c

/-- Python `s.startswith(p)`. -/
def strIsPrefixOf (p s : String) : Bool := (p.toList).isPrefixOf (s.toList)

/-- Python slicing `s[n:]` (by code points). -/
def strDropChars (s : String) (n : Nat) : String := String.mk ((s.toList).drop n)

/-- Python uppercasing (ASCII letters; other characters are unchanged). -/
def strToUpper (s : String) : String := String.mk ((s.toList).map Char.toUpper)

/-- Split a string at every character satisfying `p`, keeping empty
segments, exactly as Python `split` with an explicit separator and
`re.split` do: `""` gives `[""]` and a trailing separator yields a trailing
empty segment. -/
def splitWhen (p : Char → Bool) (s : String) : List String :=
  ((s.toList).foldr
    (fun c acc =>
      if p c then [] :: acc
      else
        match acc with
        | h :: t => (c :: h) :: t
        | [] => [[c]])
    [[]]).map (fun l => String.mk l)

/-- Calendar date as produced by `pd.Timestamp(year=..., month=..., day=...)`. -/
structure PDate where
  year : Int
  month : Int
  day : Int
deriving DecidableEq, Repr

/-- Gregorian leap-year test, as used by `pd.Timestamp` validity checking. -/
def isLeapYear (y : Int) : Bool :=
  (y % 4 == 0 && y % 100 != 0) || (y % 400 == 0)

/-- Number of days of month `m` in year `y`. -/
def daysInMonth (y m : Int) : Int :=
  if m = 2 then (if isLeapYear y then 29 else 28)
  else if m = 4 ∨ m = 6 ∨ m = 9 ∨ m = 11 then 30
  else 31

/-- Model of `pd.Timestamp(year=y, month=m, day=d)` inside a try/except:
an invalid month or day raises in Python, which the caller catches and
turns into NaT, hence `none` here. -/
def mkTimestamp (y m d : Int) : Option PDate :=
  if 1 ≤ m ∧ m ≤ 12 ∧ 1 ≤ d ∧ d ≤ daysInMonth y m then some ⟨y, m, d⟩ else none

/-- Value of a nonempty all-digit character list, `none` otherwise. -/
def pyIntCore (cs : List Char) : Option Int :=
  if cs ≠ [] ∧ cs.all (fun c => c.isDigit) then
    some (Int.ofNat (cs.foldl (fun a c => a * 10 + (c.toNat - 48)) 0))
  else none

/-- Model of Python `int(s)` for decimal string literals: strip surrounding
whitespace, allow one optional sign, then require digits.  A failure raises
`ValueError` in Python, which the caller catches, hence `none` here. -/
def pyInt (s : String) : Option Int :=
  match (pyStrip s).toList with
  | '+' :: rest => pyIntCore rest
  | '-' :: rest => (pyIntCore rest).map Int.neg
  | cs => pyIntCore cs

/-- Model of the `re.split` on the slash-or-hyphen character class
(etl.py line 94): every `/` or `-` starts a new segment and empty segments
are kept, so `""` gives `[""]` and `"12/"` gives `["12", ""]`. -/
def resplitDate (s : String) : List String :=
  splitWhen (fun c => c == '/' || c == '-') s

/-- Embedding of `parse_date_with_year` (etl.py lines 89-111).
`toDatetime` is the oracle for `pd.to_datetime(s, errors='coerce')` used on
the three-part branch; being total into `Option PDate` it reflects the
`errors='coerce'` contract.  The `pd.isna(date_str)` guard of the source
concerns the float-NaN input case, which for string tokens is subsumed by
the `'nan'` placeholder check. -/
def parse_date_with_year (toDatetime : String → Option PDate)
    (date_str : String) (base_year bill_month : Int) : Option PDate :=
  let s := pyStrip date_str
  if s = "(null)" ∨ s = "nan" ∨ s = "" then none
  else
    match resplitDate s with
    | [p0, p1] =>
      match pyInt p0, pyInt p1 with
      | some month, some day =>
        let y0 := base_year
        let y1 := if bill_month = 1 ∧ month = 12 then y0 - 1 else y0
        let y2 := if bill_month = 12 ∧ month = 1 then y1 + 1 else y1
        mkTimestamp y2 month day
      | _, _ => none
    | [_, _, _] => toDatetime s
    | _ => none

/-- The fixed 3-letter to 2-letter country table of `normalize_country_code`
(etl.py lines 70-75). -/
def countryMap : List (String × String) :=
  [("TWN", "TW"), ("USA", "US"), ("JPN", "JP"), ("KOR", "KR"),
   ("HKG", "HK"), ("SGP", "SG"), ("GBR", "GB"), ("CHN", "CN"),
   ("IRL", "IE"), ("DEU", "DE"), ("FRA", "FR"), ("AUS", "AU"),
   ("VNM", "VN"), ("THA", "TH"), ("MYS", "MY"), ("IDN", "ID")]

/-- Embedding of `normalize_country_code` (etl.py lines 36-87), debug
printing dropped.  `none` models a `None`/NaN input caught by `pd.isna`.
Note that the source splits the uppercased string on the single space
character, `split(' ')`, and takes element 0. -/
def normalize_country_code (code : Option String) : String :=
  match code with
  | none => "TW"
  | some raw =>
    let stripped := pyStrip raw
    if stripped = "" then "TW"
    else
      let clean := (splitWhen (fun c => c == ' ') (strToUpper stripped)).headD ""
      match List.lookup clean countryMap with
      | some mapped => mapped
      | none => if clean.length = 2 then clean else clean

/-- Modelled from the spec (section 4.2): the same normalization, but taking
the first WHITESPACE-delimited token of the input, as the specification
words it ("take the first whitespace-delimited token").  Used only to
compare the specification reading against the source behaviour. -/
def normalize_country_code_wsSpec (code : Option String) : String :=
  match code with
  | none => "TW"
  | some raw =>
    let stripped := pyStrip raw
    if stripped = "" then "TW"
    else
      let clean := (splitWhen wsChar (strToUpper stripped)).headD ""
      match List.lookup clean countryMap with
      | some mapped => mapped
      | none => if clean.length = 2 then clean else clean

/-- Outcome of the ingestion routing of `smart_read_csv`: either parse the
buffered tail of the file starting at the located header line (with
`on_bad_lines='skip'`), or fall back to reading the whole file from line 0
(also skipping malformed lines). -/
inductive ReadRoute where
  | fromLine : Nat → ReadRoute
  | fallbackFromStart : ReadRoute
deriving DecidableEq, Repr

/-- Header scan of `smart_read_csv` (etl.py lines 126-132): iterate over the
lines with their 0-based index, break as soon as the index exceeds 50, and
report the first line containing the (truthy) keyword. -/
def scanHeaderIdx (kw : String) : Nat → List String → Option Nat
  | _, [] => none
  | i, l :: rest =>
    if i > 50 then none
    else if kw ≠ "" ∧ containsSub l kw then some i
    else scanHeaderIdx kw (i + 1) rest

/-- Modelled from the spec (section 4.3): the header keyword is searched in
at most the FIRST 50 LINES, i.e. 0-based indices 0 through 49.  This is the
window the code's own comment (`掃描前 50 行找標題`) describes; used to
compare against the window the code actually scans. -/
def scanHeaderIdxSpecWindow (kw : String) : Nat → List String → Option Nat
  | _, [] => none
  | i, l :: rest =>
    if i ≥ 50 then none
    else if kw ≠ "" ∧ containsSub l kw then some i
    else scanHeaderIdxSpecWindow kw (i + 1) rest

/-- Routing decision of `smart_read_csv` (etl.py lines 118-141): if the
anchor scan finds the keyword, parse from that line on; otherwise fall back
to parsing from line 0. -/
def smart_read_csv_route (all_lines : List String) (kw : String) : ReadRoute :=
  match scanHeaderIdx kw 0 all_lines with
  | some i => ReadRoute.fromLine i
  | none => ReadRoute.fallbackFromStart

/-- One row of the ledger as seen by refine.py, after the dtype coercion of
`main` (string columns NaN-filled to `""` and stripped, float columns kept
numeric with NaN as `none`).  `prefixCol` models the working column named
`payment_` + `prefix` in the source. -/
structure TxnRow where
  Bank_Name : String
  Card_Type : String
  Card_No : String
  Merchant : String
  Merchant_Location : String
  Consumption_Place : String
  Transaction_Type : String
  Mobile_Payment : String
  Currency_Type : String
  Currency_Amount : Option ℚ
  Payment_Currency : String
  Payment_Amount : Option ℚ
  prefixCol : String
deriving DecidableEq, Repr

/-- One row of configs/card_mapping.csv, read with `dtype=str` and
`keep_default_na=False` so every field is a string (empty when blank).
Field names are romanized from the CSV headers: `card` is `卡號`,
`cardType` is `對應卡片`, `mobileTag` is `行動支付標籤`, `prefixLabel` is
`加在消費明細摘要前方`, `replaceCard` is `卡號代換`. -/
structure CardRule where
  card : String
  cardType : String
  mobileTag : String
  prefixLabel : String
  replaceCard : String
deriving DecidableEq, Repr

/-- Stripped rule fields (refine.py line 111 strips all five columns) and
the per-rule `target_card = row['卡號'].replace(' ', '')` of line 121. -/
def tcard (ru : CardRule) : String := removeSpaces (pyStrip ru.card)

/-- Stripped `對應卡片` value of a rule. -/
def tctype (ru : CardRule) : String := pyStrip ru.cardType

/-- Stripped `行動支付標籤` value of a rule. -/
def tmobile (ru : CardRule) : String := pyStrip ru.mobileTag

/-- Stripped `加在消費明細摘要前方` value of a rule. -/
def tpfx (ru : CardRule) : String := pyStrip ru.prefixLabel

/-- Stripped `卡號代換` value of a rule. -/
def treplace (ru : CardRule) : String := pyStrip ru.replaceCard

/-- Cleaned card number snapshot (refine.py line 117):
`df['Card_No'].astype(str).str.replace(' ', '').str.strip()`. -/
def snapCC (r : TxnRow) : String := pyStrip (removeSpaces r.Card_No)

/-- Cleaned mobile-payment snapshot (refine.py line 118):
`df['Mobile_Payment'].astype(str).str.strip().replace('nan', '')`, where
the trailing `replace` is a pandas whole-value replacement. -/
def snapCM (r : TxnRow) : String :=
  let t := pyStrip r.Mobile_Payment
  if t = "nan" then "" else t

/-- Match mask of one card-mapping rule (refine.py lines 120-140) against
the cleaned snapshots: a rule with an empty `卡號` is skipped (`continue`);
a dual-number rule (card fragment containing a slash) matches by exact
fragment equality; otherwise a rule with a mobile-payment tag matches by
fragment AND mobile-tag equality; otherwise by fragment equality alone. -/
def cardRuleMask (ru : CardRule) (cc cm : String) : Bool :=
  if tcard ru = "" then false
  else if strContainsChar (tcard ru) '/' then cc == tcard ru
  else if tmobile ru ≠ "" then cc == tcard ru && cm == tmobile ru
  else cc == tcard ru

/-- Field writes of one matching card-mapping rule (refine.py lines
144-148): each of the four fields is overwritten only when the rule's
value for it is non-empty (`if target_card_type:` etc.). -/
def cardRuleWrite (ru : CardRule) (r : TxnRow) : TxnRow :=
  { r with
    Card_Type := if tctype ru ≠ "" then tctype ru else r.Card_Type
    Mobile_Payment := if tmobile ru ≠ "" then tmobile ru else r.Mobile_Payment
    prefixCol := if tpfx ru ≠ "" then tpfx ru else r.prefixCol
    Card_No := if treplace ru ≠ "" then treplace ru else r.Card_No }

/-- Per-row embedding of `apply_card_mapping` (refine.py lines 92-152):
the working merchant-prefix column is reset to the empty string (line 110),
the cleaned card/mobile snapshots are computed once from the incoming row
(lines 117-118), and the rules are folded over in file order (line 120,
`rules.iterrows()`), each matching rule applying its writes. -/
def apply_card_mapping_row (rules : List CardRule) (r : TxnRow) : TxnRow :=
  let cc := snapCC r
  let cm := snapCM r
  List.foldl
    (fun acc ru => if cardRuleMask ru cc cm then cardRuleWrite ru acc else acc)
    { r with prefixCol := "" } rules

/-- Per-row embedding of `cleanup_cathay_remaining` (refine.py lines
154-160): Cathay rows whose card number still contains a slash keep only
the (stripped) text before the first slash. -/
def cleanup_cathay_remaining_row (r : TxnRow) : TxnRow :=
  if r.Bank_Name = "cube_bank" ∧ strContainsChar r.Card_No '/' then
    { r with Card_No := pyStrip ((splitWhen (fun c => c == '/') r.Card_No).headD "") }
  else r

/-- One row of configs/payment_regex_rules.csv after `load_payment_rules`
(already sorted by descending priority).  `matcher` is `none` when the
rule has no pattern (`if not pattern: continue`), else it is the oracle for
`df['Merchant'].str.contains(pattern, regex=True, na=False)`. -/
structure PaymentRule where
  matcher : Option (String → Bool)
  category : String
  prefixLabel : String

/-- Per-row embedding of `identify_third_party_payment` (refine.py lines
162-180): each rule tags rows whose merchant matches its pattern and whose
mobile-payment tag is still empty, setting the pending prefix label and
the channel category. -/
def identify_third_party_payment_row (rules : List PaymentRule) (r : TxnRow) : TxnRow :=
  List.foldl
    (fun acc ru =>
      match ru.matcher with
      | none => acc
      | some f =>
        if f acc.Merchant ∧ acc.Mobile_Payment = "" then
          { acc with prefixCol := ru.prefixLabel, Mobile_Payment := ru.category }
        else acc)
    r rules

/-- Per-row embedding of `process_esun_epoint` (refine.py lines 186-204).
The oracle `extract` stands for the combined test-and-extract: it returns
the numeric amount captured by the e.Point regex when the merchant text
contains the trigger and the capture parses, else `none`. -/
def process_esun_epoint_row (extract : String → Option ℚ) (r : TxnRow) : TxnRow :=
  if r.Bank_Name = "esun_bank" then
    match extract r.Merchant with
    | some amt => { r with Payment_Amount := some (-amt), Payment_Currency := "TWD" }
    | none => r
  else r

/-- One row of configs/merchant_regex_rules.csv after
`load_merchant_regex_rules` (sorted descending by priority, `Replacement`
NaN-filled to the empty string, empty patterns dropped).  `matcher` is the
oracle for the rule's regex containment test. -/
structure MerchantRegexRule where
  matcher : String → Bool
  replacement : String

/-- Per-row embedding of `clean_merchant_by_regex` (refine.py lines
206-223): rules with an empty replacement are skipped (`if not repl:
continue`); a matching rule replaces the whole merchant text with its
replacement, and later rules run on the replaced text. -/
def clean_merchant_by_regex_row (rules : List MerchantRegexRule) (r : TxnRow) : TxnRow :=
  List.foldl
    (fun acc ru =>
      if ru.replacement ≠ "" ∧ ru.matcher acc.Merchant then
        { acc with Merchant := ru.replacement }
      else acc)
    r rules

/-- Keyword oracles of `classify_transaction_type`: containment tests for
the configured payment, credit and fee keyword alternations
(`'|'.join(...)` with `case=False`). -/
structure KwOracles where
  payKw : String → Bool
  creditKw : String → Bool
  feeKw : String → Bool

/-- The fixed exclusion alternation of the payment stage (refine.py line
255): merchant text containing `代收`, `手續費` or `運費`. -/
def exclKw (m : String) : Bool :=
  containsSub m "代收" || containsSub m "手續費" || containsSub m "運費"

/-- Pandas `x < 0` where NaN compares false. -/
def ltZero : Option ℚ → Bool
  | none => false
  | some x => decide (x < 0)

/-- Pandas `x == 0` where NaN compares false. -/
def eqZero : Option ℚ → Bool
  | none => false
  | some x => decide (x = 0)

/-- Pandas `x > 0` where NaN compares false. -/
def gtZero : Option ℚ → Bool
  | none => false
  | some x => decide (0 < x)

/-- Stage 1 of `classify_transaction_type` (refine.py lines 251-260):
payment rows (matching the payment keywords, not the fixed exclusion, and
still unclassified) are tagged `繳款` and their card/channel context is
cleared. -/
def classifyStage1 (k : KwOracles) (r : TxnRow) : TxnRow :=
  if k.payKw r.Merchant ∧ r.Transaction_Type = "" ∧ ¬ exclKw r.Merchant then
    { r with Transaction_Type := "繳款", Card_Type := "", Mobile_Payment := "",
             Consumption_Place := "", prefixCol := "" }
  else r

/-- Stage 2 (refine.py lines 263-270): credit/offset rows are tagged
`折抵` and their channel fields cleared. -/
def classifyStage2 (k : KwOracles) (r : TxnRow) : TxnRow :=
  if k.creditKw r.Merchant ∧ r.Transaction_Type = "" then
    { r with Transaction_Type := "折抵", Mobile_Payment := "", prefixCol := "" }
  else r

/-- Stage 3 (refine.py lines 273-275): rows with a strictly negative
settlement amount still unclassified are tagged `退刷`. -/
def classifyStage3 (r : TxnRow) : TxnRow :=
  if ltZero r.Payment_Amount ∧ r.Transaction_Type = "" then
    { r with Transaction_Type := "退刷" }
  else r

/-- Stage 4 (refine.py lines 278-285): fee rows are tagged `各項費用` and
their channel fields cleared. -/
def classifyStage4 (k : KwOracles) (r : TxnRow) : TxnRow :=
  if k.feeKw r.Merchant ∧ r.Transaction_Type = "" then
    { r with Transaction_Type := "各項費用", Mobile_Payment := "", prefixCol := "" }
  else r

/-- Stage 5 (refine.py lines 288-290): zero settlement amount rows still
unclassified are tagged `驗證/零元`. -/
def classifyStage5 (r : TxnRow) : TxnRow :=
  if eqZero r.Payment_Amount ∧ r.Transaction_Type = "" then
    { r with Transaction_Type := "驗證/零元" }
  else r

/-- Stage 6 (refine.py lines 296-341): positive-amount still-unclassified
rows default to `交易`; among them, rows located outside TW are sub-split:
different transaction/settlement currencies give `一般國外交易`; equal
currencies both `TWD` give `台幣跨境交易` with the transaction-currency
amount force-synchronized to the settlement amount; equal non-TWD
currencies give `一般雙幣交易`. -/
def classifyStage6 (r : TxnRow) : TxnRow :=
  if gtZero r.Payment_Amount ∧ r.Transaction_Type = "" then
    if r.Merchant_Location ≠ "TW" then
      if r.Currency_Type ≠ r.Payment_Currency then
        { r with Transaction_Type := "一般國外交易" }
      else if r.Currency_Type = "TWD" then
        { r with Transaction_Type := "台幣跨境交易",
                 Currency_Amount := r.Payment_Amount }
      else { r with Transaction_Type := "一般雙幣交易" }
    else { r with Transaction_Type := "交易" }
  else r

/-- Stages 1 through 5 of the classifier, in source order. -/
def classifyStage1to5 (k : KwOracles) (r : TxnRow) : TxnRow :=
  classifyStage5 (classifyStage4 k (classifyStage3 (classifyStage2 k (classifyStage1 k r))))

/-- Per-row embedding of `classify_transaction_type` (refine.py lines
236-342): the six guarded stages in source order. -/
def classify_transaction_type (k : KwOracles) (r : TxnRow) : TxnRow :=
  classifyStage6 (classifyStage1to5 k r)

/-- Per-row embedding of `apply_final_prefixes` (refine.py lines 225-234):
a non-empty pending prefix is prepended to the merchant text; the working
column is then dropped (modelled by resetting it to the empty string). -/
def apply_final_prefixes_row (r : TxnRow) : TxnRow :=
  if r.prefixCol ≠ "" then
    { r with Merchant := r.prefixCol ++ r.Merchant, prefixCol := "" }
  else { r with prefixCol := "" }

/-- Per-row embedding of steps 6 and 7 of Node 5 in `process_bank_file`
(etl.py lines 398-406): rows located in TW get their transaction currency
and transaction-currency amount cleared; foreign rows with a still-missing
transaction currency default it to TWD.  The unset string value (`None` in
the source frame) is modelled as the empty string, matching the refine-side
coercion of missing values. -/
def domestic_currency_cleanup_row (r : TxnRow) : TxnRow :=
  if r.Merchant_Location = "TW" then
    { r with Currency_Type := "", Currency_Amount := none }
  else if r.Currency_Type = "" then { r with Currency_Type := "TWD" }
  else r

/-- The refine.py `main` stage order (lines 379-394) applied to one row:
card mapping, Cathay dual-number cleanup, third-party channel tagging,
e.Point completion, merchant regex cleaning, type classification, final
prefix assembly. -/
def refine_pipeline_row (crules : List CardRule) (prules : List PaymentRule)
    (mrules : List MerchantRegexRule) (epoint : String → Option ℚ)
    (k : KwOracles) (r : TxnRow) : TxnRow :=
  apply_final_prefixes_row
    (classify_transaction_type k
      (clean_merchant_by_regex_row mrules
        (process_esun_epoint_row epoint
          (identify_third_party_payment_row prules
            (cleanup_cathay_remaining_row
              (apply_card_mapping_row crules r))))))

/-- Category/sub-category/exclusion data stored in the direct lookup table
of `load_merchant_config_hybrid` (db_to_RFManalysis.py lines 77-93); the
stored canonical `name` is not consulted on the lookup path. -/
structure MInfo where
  name : String
  category : String
  subCategory : String
  rfmExclusion : Bool

/-- One regex rule of `load_merchant_config_hybrid` (already sorted by
descending priority); `matcher` is the oracle for `pattern.search`. -/
structure MerchantRule where
  matcher : String → Bool
  name : String
  category : String
  subCategory : String
  rfmExclusion : Bool

/-- Prefix stripping loop of `process_merchant_hybrid` (db_to_RFManalysis.py
lines 115-118): drop the first listed channel label the name starts with. -/
def stripChannelTag : List String → String → String
  | [], s => s
  | p :: ps, s => if strIsPrefixOf p s then strDropChars s p.length else stripChannelTag ps s

/-- Embedding of `process_merchant_hybrid` (db_to_RFManalysis.py lines
105-134).  `none` input models a non-string `merchant_name`; `lookup` is
the direct lookup dictionary keyed by canonical names.  Steps: strip one
channel label, re-strip whitespace, try the exact lookup, then scan the
regex rules in order, else return the stripped name (or the raw name when
stripping emptied it) as an uncategorized `Unknown` merchant. -/
def process_merchant_hybrid (raw : Option String) (rulesList : List MerchantRule)
    (lookup : String → Option MInfo) (prefixes : List String) :
    String × String × String × Bool :=
  match raw with
  | none => ("Unknown", "Unknown", "", false)
  | some rawName =>
    let current := pyStrip (stripChannelTag prefixes (pyStrip rawName))
    match lookup current with
    | some info => (current, info.category, info.subCategory, info.rfmExclusion)
    | none =>
      match rulesList.find? (fun ru => ru.matcher current) with
      | some ru => (ru.name, ru.category, ru.subCategory, ru.rfmExclusion)
      | none => (if current ≠ "" then current else rawName, "Unknown", "", false)

/-- Value written into a given rule field by the last rule of the list whose
(stripped) value for that field is non-empty; `d` when no rule of the list
writes the field.  Scanning left to right, a non-empty field value replaces
the pending default, so the final pending value is the last non-empty one. -/
def lastNonEmptyWrite (f : CardRule → String) (d : String) : List CardRule → String
  | [] => d
  | ru :: t => lastNonEmptyWrite f (if f ru = "" then d else f ru) t

/-- Keyword oracle bundle matching nothing (an empty keyword configuration). -/
def kwNone : KwOracles := ⟨fun _ => false, fun _ => false, fun _ => false⟩

/-- Baseline concrete ledger row used by the concrete instances below. -/
def baseRow : TxnRow :=
  { Bank_Name := "ctbc_bank", Card_Type := "OLDTYPE", Card_No := "1111",
    Merchant := "STORE", Merchant_Location := "JP", Consumption_Place := "",
    Transaction_Type := "", Mobile_Payment := "", Currency_Type := "TWD",
    Currency_Amount := none, Payment_Currency := "TWD",
    Payment_Amount := some 100, prefixCol := "" }

/-- First card-mapping rule of the C1 counterexample: matches card fragment
1111 and sets the card type. -/
def c1RuleEarly : CardRule := ⟨"1111", "GOLD", "", "", ""⟩

/-- Second card-mapping rule of the C1 counterexample: also matches card
fragment 1111, replaces the card number but leaves the card type blank. -/
def c1RuleLate : CardRule := ⟨"1111", "", "", "", "9999"⟩

/-- Card-mapping rule for the C10 instance: matches fragment 1111 and
replaces the card number by 9999. -/
def c10RuleA : CardRule := ⟨"1111", "TYPEA", "", "", "9999"⟩

/-- Card-mapping rule for the C10 instance: targets fragment 9999, the very
value rule A writes into matched rows. -/
def c10RuleB : CardRule := ⟨"9999", "TYPEB", "", "", ""⟩

/-- Concrete 52-line file for C8: 50 noise lines, then the anchor line at
0-based index 50 (the 51st line), then one data line. -/
def c8Lines : List String := List.replicate 50 "noise" ++ ["Anchor,Col2", "1,2"]

/-- Concrete 53-line file for C8 with the anchor line at 0-based index 51
(the 52nd line), just outside the window the code scans. -/
def c8LinesLate : List String := List.replicate 51 "noise" ++ ["Anchor,Col2", "1,2"]

/-- Concrete direct-lookup table for the C6 witness. -/
def c6Lookup : String → Option MInfo :=
  fun s => if s = "STARBUCKS" then some ⟨"STARBUCKS", "Coffee", "Chain", false⟩ else none

/-- A projection left unchanged by every fold step is left unchanged by the
whole fold. -/
theorem foldl_proj_const {α β γ : Type _} (g : α → γ) (f : α → β → α)
    (h : ∀ a b, g (f a b) = g a) :
    ∀ (l : List β) (init : α), g (List.foldl f init l) = g init := by
  intro l
  induction l with
  | nil => intro init; rfl
  | cons b t ih => intro init; rw [List.foldl_cons, ih, h]

/-- A fold whose step fires only on elements satisfying `p` equals the
unconditional fold over the filtered list. -/
theorem foldl_if_eq_foldl_filter {α β : Type _} (p : β → Bool) (f : α → β → α) :
    ∀ (l : List β) (init : α),
      List.foldl (fun acc b => if p b then f acc b else acc) init l =
        List.foldl f init (l.filter p) := by
  intro l
  induction l with
  | nil => intro init; rfl
  | cons b t ih =>
    intro init
    by_cases hb : p b
    · simp only [List.foldl_cons, List.filter_cons, hb, if_true, ih]
    · simp only [List.foldl_cons, List.filter_cons, hb, if_false, ih, Bool.false_eq_true]

/-- Folding the write action of a rule list over a row updates exactly the
four mapped fields, each to the last non-empty value the list supplies. -/
theorem foldl_cardRuleWrite_fields :
    ∀ (l : List CardRule) (init : TxnRow),
      List.foldl (fun acc ru => cardRuleWrite ru acc) init l =
        { init with
          Card_Type := lastNonEmptyWrite tctype init.Card_Type l
          Mobile_Payment := lastNonEmptyWrite tmobile init.Mobile_Payment l
          prefixCol := lastNonEmptyWrite tpfx init.prefixCol l
          Card_No := lastNonEmptyWrite treplace init.Card_No l } := by
  intro l
  induction l with
  | nil => intro init; rfl
  | cons ru t ih =>
    intro init
    rw [List.foldl_cons, ih]
    cases init
    simp only [cardRuleWrite, lastNonEmptyWrite]
    by_cases h1 : tctype ru = "" <;> by_cases h2 : tmobile ru = "" <;>
      by_cases h3 : tpfx ru = "" <;> by_cases h4 : treplace ru = "" <;>
      simp [h1, h2, h3, h4]

/-- Claim C1, amended.  Card-mapping rules are applied strictly in the
order they appear in the configuration file, never re-sorted, with
last-write-wins on overlapping matches taken per field: after resolution
each of the four mapped fields (card type, mobile-payment tag, pending
merchant prefix, replacement card number) holds the value of the
last-declared matching rule that supplies a non-empty value for that field
(a matching rule with an empty value for a field leaves it unchanged; the
pending prefix starts from the empty string).  A rule's match mask is
chosen by discriminator priority on the cleaned snapshots: an empty card
fragment never matches; a fragment containing the dual-number separator
matches by exact fragment equality alone; else a rule with a required
mobile-payment tag matches by fragment AND mobile-tag equality; else by
fragment equality alone. -/
theorem c1_card_mapping_last_nonempty_write (rules : List CardRule) (r : TxnRow) :
    apply_card_mapping_row rules r =
      { r with
        Card_Type := lastNonEmptyWrite tctype r.Card_Type
          (rules.filter (fun ru => cardRuleMask ru (snapCC r) (snapCM r)))
        Mobile_Payment := lastNonEmptyWrite tmobile r.Mobile_Payment
          (rules.filter (fun ru => cardRuleMask ru (snapCC r) (snapCM r)))
        prefixCol := lastNonEmptyWrite tpfx ""
          (rules.filter (fun ru => cardRuleMask ru (snapCC r) (snapCM r)))
        Card_No := lastNonEmptyWrite treplace r.Card_No
          (rules.filter (fun ru => cardRuleMask ru (snapCC r) (snapCM r))) } ∧
    (∀ ru cc cm, cardRuleMask ru cc cm =
      (if tcard ru = "" then false
       else if strContainsChar (tcard ru) '/' then cc == tcard ru
       else if tmobile ru ≠ "" then cc == tcard ru && cm == tmobile ru
       else cc == tcard ru)) := by
  constructor
  · simp only [apply_card_mapping_row]
    rw [foldl_if_eq_foldl_filter, foldl_cardRuleWrite_fields]
  · intro ru cc cm
    rfl

/-- Claim C1, counterexample to the claim as stated: with two rules both
matching the same row, the card type present after resolution is the one
written by the EARLIER rule, because the later matching rule declares an
empty card-type value and therefore does not overwrite the field. -/
theorem c1_counterexample :
    cardRuleMask c1RuleEarly (snapCC baseRow) (snapCM baseRow) = true ∧
    cardRuleMask c1RuleLate (snapCC baseRow) (snapCM baseRow) = true ∧
    (apply_card_mapping_row [c1RuleEarly, c1RuleLate] baseRow).Card_Type = "GOLD" ∧
    tctype c1RuleLate ≠ "GOLD" := by
  decide

/-- Claim C10.  The match masks of `apply_card_mapping` are computed against
the cleaned Card_No and Mobile_Payment snapshots taken once from the
incoming row before any rule is applied: splitting the rule list at any
point, the remaining rules still match against the ORIGINAL row's
snapshots, not against the partially rewritten row.  The concrete instance
exhibits this: rule A rewrites the card number to the exact fragment rule B
targets, yet rule B (declared after A) still does not match — matching
depends only on the pre-resolution values. -/
theorem c10_snapshot_matching :
    (∀ (l1 l2 : List CardRule) (r : TxnRow),
        apply_card_mapping_row (l1 ++ l2) r =
          List.foldl
            (fun acc ru =>
              if cardRuleMask ru (snapCC r) (snapCM r) then cardRuleWrite ru acc else acc)
            (apply_card_mapping_row l1 r) l2) ∧
    (apply_card_mapping_row [c10RuleA, c10RuleB] baseRow =
        apply_card_mapping_row [c10RuleA] baseRow ∧
      snapCC (apply_card_mapping_row [c10RuleA] baseRow) = tcard c10RuleB ∧
      cardRuleMask c10RuleB (snapCC baseRow) (snapCM baseRow) = false) := by
  constructor
  · intro l1 l2 r
    simp only [apply_card_mapping_row]
    rw [List.foldl_append]
  · decide

/-- Classifier stages 1-5 never touch the amount, location or currency
fields of a row. -/
theorem classifyStage1to5_proj (k : KwOracles) (r : TxnRow) :
    (classifyStage1to5 k r).Payment_Amount = r.Payment_Amount ∧
    (classifyStage1to5 k r).Merchant_Location = r.Merchant_Location ∧
    (classifyStage1to5 k r).Currency_Type = r.Currency_Type ∧
    (classifyStage1to5 k r).Payment_Currency = r.Payment_Currency ∧
    (classifyStage1to5 k r).Currency_Amount = r.Currency_Amount := by
  unfold classifyStage1to5 classifyStage1 classifyStage2 classifyStage3
    classifyStage4 classifyStage5
  split_ifs <;> exact ⟨rfl, rfl, rfl, rfl, rfl⟩

/-- Classifier stages 1 and 2 never touch the settlement amount. -/
theorem classifyStage12_pa (k : KwOracles) (r : TxnRow) :
    (classifyStage2 k (classifyStage1 k r)).Payment_Amount = r.Payment_Amount := by
  unfold classifyStage1 classifyStage2
  split_ifs <;> rfl

/-- Stage 4 does nothing to an already classified row. -/
theorem classifyStage4_skip (k : KwOracles) (r : TxnRow)
    (h : r.Transaction_Type ≠ "") : classifyStage4 k r = r := by
  unfold classifyStage4
  rw [if_neg]
  intro hc
  exact h hc.2

/-- Stage 5 does nothing to an already classified row. -/
theorem classifyStage5_skip (r : TxnRow)
    (h : r.Transaction_Type ≠ "") : classifyStage5 r = r := by
  unfold classifyStage5
  rw [if_neg]
  intro hc
  exact h hc.2

/-- Stage 6 does nothing to an already classified row. -/
theorem classifyStage6_skip (r : TxnRow)
    (h : r.Transaction_Type ≠ "") : classifyStage6 r = r := by
  unfold classifyStage6
  rw [if_neg]
  intro hc
  exact h hc.2

/-- Claim C2.  For a row still unclassified after stages 1-5 whose
settlement amount is strictly positive and whose location is not TW: equal
transaction/settlement currencies both equal to TWD give category
`台幣跨境交易` and overwrite the transaction-currency amount with the
settlement amount; different currencies give `一般國外交易`; equal non-TWD
currencies give `一般雙幣交易`. -/
theorem c2_foreign_subclassification (k : KwOracles) (r : TxnRow)
    (hun : (classifyStage1to5 k r).Transaction_Type = "")
    (hpos : gtZero r.Payment_Amount = true)
    (hloc : r.Merchant_Location ≠ "TW") :
    (r.Currency_Type = r.Payment_Currency → r.Currency_Type = "TWD" →
      (classify_transaction_type k r).Transaction_Type = "台幣跨境交易" ∧
      (classify_transaction_type k r).Currency_Amount = r.Payment_Amount) ∧
    (r.Currency_Type ≠ r.Payment_Currency →
      (classify_transaction_type k r).Transaction_Type = "一般國外交易") ∧
    (r.Currency_Type = r.Payment_Currency → r.Currency_Type ≠ "TWD" →
      (classify_transaction_type k r).Transaction_Type = "一般雙幣交易") := by
  obtain ⟨hPA, hLoc, hCT, hPC, hCA⟩ := classifyStage1to5_proj k r
  unfold classify_transaction_type classifyStage6
  rw [hPA, hLoc, hCT, hPC, hun]
  refine ⟨fun h1 h2 => ?_, fun h1 => ?_, fun h1 h2 => ?_⟩
  · rw [if_pos ⟨hpos, rfl⟩, if_pos hloc, if_neg (fun hc => hc h1), if_pos h2]
    exact ⟨rfl, rfl⟩
  · rw [if_pos ⟨hpos, rfl⟩, if_pos hloc, if_pos h1]
  · rw [if_pos ⟨hpos, rfl⟩, if_pos hloc, if_neg (fun hc => hc h1), if_neg h2]

/-- Claim C2 witness: a concrete positive-amount foreign row with both
currencies TWD gets category `台幣跨境交易`, and its transaction-currency
amount is overwritten to the settlement amount. -/
theorem c2_witness :
    (classify_transaction_type kwNone baseRow).Transaction_Type = "台幣跨境交易" ∧
    (classify_transaction_type kwNone baseRow).Currency_Amount = some 100 := by
  have h := (c2_foreign_subclassification kwNone baseRow (by decide) (by decide)
    (by decide)).1 rfl rfl
  exact ⟨h.1, h.2⟩

/-- Claim C9.  A row whose settlement amount is strictly negative and which
is still unclassified after the payment and credit stages is categorized
`退刷`, regardless of its merchant location, and no later stage (fee, zero,
general transaction) reassigns it. -/
theorem c9_refund_precedence (k : KwOracles) (r : TxnRow)
    (h12 : (classifyStage2 k (classifyStage1 k r)).Transaction_Type = "")
    (hneg : ltZero r.Payment_Amount = true) :
    (classify_transaction_type k r).Transaction_Type = "退刷" := by
  have hPA := classifyStage12_pa k r
  unfold classify_transaction_type classifyStage1to5
  have h3 : classifyStage3 (classifyStage2 k (classifyStage1 k r)) =
      { classifyStage2 k (classifyStage1 k r) with Transaction_Type := "退刷" } := by
    unfold classifyStage3
    rw [if_pos ⟨by rw [hPA]; exact hneg, h12⟩]
  have hTT3 : (classifyStage3 (classifyStage2 k (classifyStage1 k r))).Transaction_Type =
      "退刷" := by rw [h3]
  rw [classifyStage4_skip k _ (by rw [hTT3]; decide)]
  rw [classifyStage5_skip _ (by rw [hTT3]; decide)]
  rw [classifyStage6_skip _ (by rw [hTT3]; decide)]
  exact hTT3

/-- Claim C9 witness: a concrete home-country row with settlement amount
minus 50, matching no keyword, is categorized `退刷`. -/
theorem c9_witness :
    (classify_transaction_type kwNone
      { baseRow with Merchant_Location := "TW", Payment_Amount := some (-50) }).Transaction_Type =
      "退刷" :=
  c9_refund_precedence kwNone _ (by decide) (by decide)

/-- Card-identity resolution never touches location or the FX fields. -/
theorem acm_proj (rules : List CardRule) (r : TxnRow) :
    (apply_card_mapping_row rules r).Merchant_Location = r.Merchant_Location ∧
    (apply_card_mapping_row rules r).Currency_Type = r.Currency_Type ∧
    (apply_card_mapping_row rules r).Currency_Amount = r.Currency_Amount := by
  simp only [apply_card_mapping_row]
  refine ⟨?_, ?_, ?_⟩
  · exact foldl_proj_const TxnRow.Merchant_Location _
      (fun a ru => by
        by_cases hm : cardRuleMask ru (snapCC r) (snapCM r) = true <;> simp [hm, cardRuleWrite])
      rules _
  · exact foldl_proj_const TxnRow.Currency_Type _
      (fun a ru => by
        by_cases hm : cardRuleMask ru (snapCC r) (snapCM r) = true <;> simp [hm, cardRuleWrite])
      rules _
  · exact foldl_proj_const TxnRow.Currency_Amount _
      (fun a ru => by
        by_cases hm : cardRuleMask ru (snapCC r) (snapCM r) = true <;> simp [hm, cardRuleWrite])
      rules _

/-- Cathay dual-number repair never touches location or the FX fields. -/
theorem cathay_proj (r : TxnRow) :
    (cleanup_cathay_remaining_row r).Merchant_Location = r.Merchant_Location ∧
    (cleanup_cathay_remaining_row r).Currency_Type = r.Currency_Type ∧
    (cleanup_cathay_remaining_row r).Currency_Amount = r.Currency_Amount := by
  unfold cleanup_cathay_remaining_row
  split_ifs <;> exact ⟨rfl, rfl, rfl⟩

/-- Channel identification never touches location or the FX fields. -/
theorem third_proj (rules : List PaymentRule) (r : TxnRow) :
    (identify_third_party_payment_row rules r).Merchant_Location = r.Merchant_Location ∧
    (identify_third_party_payment_row rules r).Currency_Type = r.Currency_Type ∧
    (identify_third_party_payment_row rules r).Currency_Amount = r.Currency_Amount := by
  unfold identify_third_party_payment_row
  refine ⟨?_, ?_, ?_⟩
  · exact foldl_proj_const TxnRow.Merchant_Location _
      (fun a ru => by
        cases ru.matcher with
        | none => rfl
        | some f => by_cases hm : f a.Merchant ∧ a.Mobile_Payment = "" <;> simp [hm])
      rules r
  · exact foldl_proj_const TxnRow.Currency_Type _
      (fun a ru => by
        cases ru.matcher with
        | none => rfl
        | some f => by_cases hm : f a.Merchant ∧ a.Mobile_Payment = "" <;> simp [hm])
      rules r
  · exact foldl_proj_const TxnRow.Currency_Amount _
      (fun a ru => by
        cases ru.matcher with
        | none => rfl
        | some f => by_cases hm : f a.Merchant ∧ a.Mobile_Payment = "" <;> simp [hm])
      rules r

/-- The e.Point completion never touches location or the FX fields. -/
theorem epoint_proj (extract : String → Option ℚ) (r : TxnRow) :
    (process_esun_epoint_row extract r).Merchant_Location = r.Merchant_Location ∧
    (process_esun_epoint_row extract r).Currency_Type = r.Currency_Type ∧
    (process_esun_epoint_row extract r).Currency_Amount = r.Currency_Amount := by
  unfold process_esun_epoint_row
  split_ifs
  · cases extract r.Merchant <;> exact ⟨rfl, rfl, rfl⟩
  · exact ⟨rfl, rfl, rfl⟩

/-- Merchant regex cleaning never touches location or the FX fields. -/
theorem cleanm_proj (rules : List MerchantRegexRule) (r : TxnRow) :
    (clean_merchant_by_regex_row rules r).Merchant_Location = r.Merchant_Location ∧
    (clean_merchant_by_regex_row rules r).Currency_Type = r.Currency_Type ∧
    (clean_merchant_by_regex_row rules r).Currency_Amount = r.Currency_Amount := by
  unfold clean_merchant_by_regex_row
  refine ⟨?_, ?_, ?_⟩
  · exact foldl_proj_const TxnRow.Merchant_Location _
      (fun a ru => by
        by_cases hm : ru.replacement ≠ "" ∧ ru.matcher a.Merchant <;> simp [hm])
      rules r
  · exact foldl_proj_const TxnRow.Currency_Type _
      (fun a ru => by
        by_cases hm : ru.replacement ≠ "" ∧ ru.matcher a.Merchant <;> simp [hm])
      rules r
  · exact foldl_proj_const TxnRow.Currency_Amount _
      (fun a ru => by
        by_cases hm : ru.replacement ≠ "" ∧ ru.matcher a.Merchant <;> simp [hm])
      rules r

/-- Classification never touches the location or the transaction currency. -/
theorem classify_loc_ct (k : KwOracles) (r : TxnRow) :
    (classify_transaction_type k r).Merchant_Location = r.Merchant_Location ∧
    (classify_transaction_type k r).Currency_Type = r.Currency_Type := by
  obtain ⟨hPA, hLoc, hCT, hPC, hCA⟩ := classifyStage1to5_proj k r
  unfold classify_transaction_type classifyStage6
  split_ifs <;> exact ⟨hLoc, hCT⟩

/-- On a home-country row, classification never touches the
transaction-currency amount (the TWD synchronization branch only applies
to foreign rows). -/
theorem classify_ca_domestic (k : KwOracles) (r : TxnRow)
    (h : r.Merchant_Location = "TW") :
    (classify_transaction_type k r).Currency_Amount = r.Currency_Amount := by
  obtain ⟨hPA, hLoc, hCT, hPC, hCA⟩ := classifyStage1to5_proj k r
  unfold classify_transaction_type classifyStage6
  split_ifs with h1 h2 h3 h4 <;>
    first
      | exact hCA
      | (exfalso; rw [hLoc] at h2; exact h2 h)

/-- Final prefix assembly never touches location or the FX fields. -/
theorem finalpfx_proj (r : TxnRow) :
    (apply_final_prefixes_row r).Merchant_Location = r.Merchant_Location ∧
    (apply_final_prefixes_row r).Currency_Type = r.Currency_Type ∧
    (apply_final_prefixes_row r).Currency_Amount = r.Currency_Amount := by
  unfold apply_final_prefixes_row
  split_ifs <;> exact ⟨rfl, rfl, rfl⟩

/-- The assembler's Node 5 cleanup never changes the location. -/
theorem cleanup_loc (r : TxnRow) :
    (domestic_currency_cleanup_row r).Merchant_Location = r.Merchant_Location := by
  unfold domestic_currency_cleanup_row
  split_ifs <;> rfl

/-- On a home-country row, the assembler cleanup clears the two FX fields. -/
theorem cleanup_domestic (r : TxnRow) (h : r.Merchant_Location = "TW") :
    domestic_currency_cleanup_row r =
      { r with Currency_Type := "", Currency_Amount := none } := by
  unfold domestic_currency_cleanup_row
  rw [if_pos h]

/-- Claim C3.  Domestic-transaction invariant: after the assembler clears
the FX fields of home-country rows, no refine stage (card-identity
resolution, Cathay repair, channel identification, e.Point completion,
merchant cleaning, type classification, prefix assembly) sets either
`Currency_Type` or `Currency_Amount` on a row whose location is TW, so in
the final ledger every row located in the home country has both fields
unset. -/
theorem c3_domestic_invariant (crules : List CardRule) (prules : List PaymentRule)
    (mrules : List MerchantRegexRule) (epoint : String → Option ℚ)
    (k : KwOracles) (r : TxnRow)
    (h : (refine_pipeline_row crules prules mrules epoint k
        (domestic_currency_cleanup_row r)).Merchant_Location = "TW") :
    (refine_pipeline_row crules prules mrules epoint k
        (domestic_currency_cleanup_row r)).Currency_Type = "" ∧
    (refine_pipeline_row crules prules mrules epoint k
        (domestic_currency_cleanup_row r)).Currency_Amount = none := by
  unfold refine_pipeline_row at h ⊢
  set r0 := domestic_currency_cleanup_row r with hr0
  set r1 := apply_card_mapping_row crules r0 with hr1
  set r2 := cleanup_cathay_remaining_row r1 with hr2
  set r3 := identify_third_party_payment_row prules r2 with hr3
  set r4 := process_esun_epoint_row epoint r3 with hr4
  set r5 := clean_merchant_by_regex_row mrules r4 with hr5
  set r6 := classify_transaction_type k r5 with hr6
  have hl5 : r5.Merchant_Location = r.Merchant_Location := by
    rw [hr5, (cleanm_proj mrules r4).1, hr4, (epoint_proj epoint r3).1, hr3,
      (third_proj prules r2).1, hr2, (cathay_proj r1).1, hr1,
      (acm_proj crules r0).1, hr0, cleanup_loc]
  have hlr : r.Merchant_Location = "TW" := by
    rw [(finalpfx_proj r6).1, hr6, (classify_loc_ct k r5).1, hl5] at h
    exact h
  have hdom : r0 = { r with Currency_Type := "", Currency_Amount := none } := by
    rw [hr0, cleanup_domestic r hlr]
  constructor
  · rw [(finalpfx_proj r6).2.1, hr6, (classify_loc_ct k r5).2, hr5,
      (cleanm_proj mrules r4).2.1, hr4, (epoint_proj epoint r3).2.1, hr3,
      (third_proj prules r2).2.1, hr2, (cathay_proj r1).2.1, hr1,
      (acm_proj crules r0).2.1, hdom]
  · rw [(finalpfx_proj r6).2.2, hr6,
      classify_ca_domestic k r5 (by rw [hl5]; exact hlr), hr5,
      (cleanm_proj mrules r4).2.2, hr4, (epoint_proj epoint r3).2.2, hr3,
      (third_proj prules r2).2.2, hr2, (cathay_proj r1).2.2, hr1,
      (acm_proj crules r0).2.2, hdom]

/-- Claim C3 witness: a concrete domestic row with stale FX values comes out
of the assembler cleanup plus the whole refine pipeline with both FX fields
unset. -/
theorem c3_witness :
    (refine_pipeline_row [] [] [] (fun _ => none) kwNone
        (domestic_currency_cleanup_row
          { baseRow with Merchant_Location := "TW", Currency_Type := "USD",
                         Currency_Amount := some 5 })).Currency_Type = "" ∧
    (refine_pipeline_row [] [] [] (fun _ => none) kwNone
        (domestic_currency_cleanup_row
          { baseRow with Merchant_Location := "TW", Currency_Type := "USD",
                         Currency_Amount := some 5 })).Currency_Amount = none :=
  c3_domestic_invariant [] [] [] (fun _ => none) kwNone
    { baseRow with Merchant_Location := "TW", Currency_Type := "USD",
                   Currency_Amount := some 5 } (by decide)

/-- A non-placeholder token splitting into exactly two parts reduces the
date resolver to the month/day branch. -/
theorem parse_two_part_eq (toD : String → Option PDate) (ds : String)
    (byr bm : Int) (p0 p1 : String)
    (hph : ¬ (pyStrip ds = "(null)" ∨ pyStrip ds = "nan" ∨ pyStrip ds = ""))
    (hsplit : resplitDate (pyStrip ds) = [p0, p1]) :
    parse_date_with_year toD ds byr bm =
      (match pyInt p0, pyInt p1 with
       | some month, some day =>
           mkTimestamp
             (if bm = 12 ∧ month = 1 then
                (if bm = 1 ∧ month = 12 then byr - 1 else byr) + 1
              else if bm = 1 ∧ month = 12 then byr - 1 else byr)
             month day
       | _, _ => none) := by
  simp only [parse_date_with_year]
  rw [if_neg hph, hsplit]

/-- A non-placeholder token splitting into exactly three parts reduces the
date resolver to the full-date oracle. -/
theorem parse_three_part_eq (toD : String → Option PDate) (ds : String)
    (byr bm : Int) (p0 p1 p2 : String)
    (hph : ¬ (pyStrip ds = "(null)" ∨ pyStrip ds = "nan" ∨ pyStrip ds = ""))
    (hsplit : resplitDate (pyStrip ds) = [p0, p1, p2]) :
    parse_date_with_year toD ds byr bm = toD (pyStrip ds) := by
  simp only [parse_date_with_year]
  rw [if_neg hph, hsplit]

/-- Claim C4.  For every two-part date token parsed as month/day, the
resolved year is the billing year, except that a December purchase on a
January statement resolves to the previous year and a January purchase on a
December statement resolves to the next year; every three-part token is
handed directly to the full-date parser. -/
theorem c4_two_part_year_resolution (toD : String → Option PDate) (ds : String)
    (byr bm : Int)
    (hs : pyStrip ds ≠ "(null)" ∧ pyStrip ds ≠ "nan" ∧ pyStrip ds ≠ "") :
    (∀ p0 p1 m d, resplitDate (pyStrip ds) = [p0, p1] →
      pyInt p0 = some m → pyInt p1 = some d →
      parse_date_with_year toD ds byr bm =
        mkTimestamp
          (if bm = 1 ∧ m = 12 then byr - 1
           else if bm = 12 ∧ m = 1 then byr + 1 else byr) m d) ∧
    (∀ p0 p1 p2, resplitDate (pyStrip ds) = [p0, p1, p2] →
      parse_date_with_year toD ds byr bm = toD (pyStrip ds)) := by
  have hcond : ¬ (pyStrip ds = "(null)" ∨ pyStrip ds = "nan" ∨ pyStrip ds = "") := by
    rcases hs with ⟨h1, h2, h3⟩
    rintro (hc | hc | hc)
    · exact h1 hc
    · exact h2 hc
    · exact h3 hc
  constructor
  · intro p0 p1 m d hsplit hm hd
    rw [parse_two_part_eq toD ds byr bm p0 p1 hcond hsplit, hm, hd]
    by_cases hc1 : bm = 1 ∧ m = 12 <;> by_cases hc2 : bm = 12 ∧ m = 1
    · exfalso
      rw [hc1.1] at hc2
      exact absurd hc2.1 (by decide)
    · simp [hc1, hc2]
    · simp [hc1, hc2]
    · simp [hc1, hc2]
  · intro p0 p1 p2 hsplit
    exact parse_three_part_eq toD ds byr bm p0 p1 p2 hcond hsplit

/-- Claim C4 witness: a December purchase on a January 2024 statement
resolves into December 2023, and a January purchase on a December 2024
statement resolves into January 2025. -/
theorem c4_witness :
    parse_date_with_year (fun _ => none) "12/05" 2024 1 = some ⟨2023, 12, 5⟩ ∧
    parse_date_with_year (fun _ => none) "01/15" 2024 12 = some ⟨2025, 1, 15⟩ := by
  constructor
  · have h := (c4_two_part_year_resolution (fun _ => none) "12/05" 2024 1
      ⟨by decide, by decide, by decide⟩).1 "12" "05" 12 5 (by decide) (by decide) (by decide)
    rw [h]
    decide
  · have h := (c4_two_part_year_resolution (fun _ => none) "01/15" 2024 12
      ⟨by decide, by decide, by decide⟩).1 "01" "15" 1 15 (by decide) (by decide) (by decide)
    rw [h]
    decide

/-- Claim C5.  The date resolver is total: it always returns either a date
or the no-value result, and in particular the placeholder tokens, tokens
splitting into other than two or three parts, and two-part tokens whose
parts fail integer parsing all give the no-value result rather than an
exception. -/
theorem c5_date_resolver_totality (toD : String → Option PDate) (byr bm : Int) :
    parse_date_with_year toD "" byr bm = none ∧
    parse_date_with_year toD "(null)" byr bm = none ∧
    parse_date_with_year toD "nan" byr bm = none ∧
    (∀ ds, (resplitDate (pyStrip ds)).length ≠ 2 →
      (resplitDate (pyStrip ds)).length ≠ 3 →
      parse_date_with_year toD ds byr bm = none) ∧
    (∀ ds p0 p1, resplitDate (pyStrip ds) = [p0, p1] →
      pyInt p0 = none ∨ pyInt p1 = none →
      parse_date_with_year toD ds byr bm = none) ∧
    (∀ ds, parse_date_with_year toD ds byr bm = none ∨
      ∃ dt, parse_date_with_year toD ds byr bm = some dt) := by
  refine ⟨rfl, rfl, rfl, ?_, ?_, ?_⟩
  · intro ds h2 h3
    simp only [parse_date_with_year]
    by_cases hph : (pyStrip ds = "(null)" ∨ pyStrip ds = "nan" ∨ pyStrip ds = "")
    · rw [if_pos hph]
    · rw [if_neg hph]
      rcases hls : resplitDate (pyStrip ds) with _ | ⟨p0, tl⟩
      · exact rfl
      · rcases tl with _ | ⟨p1, tl2⟩
        · exact rfl
        · rcases tl2 with _ | ⟨p2, tl3⟩
          · exfalso
            rw [hls] at h2
            simp at h2
          · rcases tl3 with _ | ⟨p3, tl4⟩
            · exfalso
              rw [hls] at h3
              simp at h3
            · exact rfl
  · intro ds p0 p1 hsplit hnone
    by_cases hph : (pyStrip ds = "(null)" ∨ pyStrip ds = "nan" ∨ pyStrip ds = "")
    · simp only [parse_date_with_year]
      rw [if_pos hph]
    · rw [parse_two_part_eq toD ds byr bm p0 p1 hph hsplit]
      rcases h0 : pyInt p0 with _ | m <;> rcases h1 : pyInt p1 with _ | d
      · exact rfl
      · exact rfl
      · exact rfl
      · exfalso
        rcases hnone with hn | hn
        · rw [h0] at hn
          exact Option.noConfusion hn
        · rw [h1] at hn
          exact Option.noConfusion hn
  · intro ds
    rcases hp : parse_date_with_year toD ds byr bm with _ | dt
    · exact Or.inl rfl
    · exact Or.inr ⟨dt, rfl⟩

/-- Claim C5 witness: a non-date token and a two-part token with
non-numeric parts both resolve to the no-value result (even with a
full-date oracle that always succeeds). -/
theorem c5_witness :
    parse_date_with_year (fun _ => some ⟨2000, 1, 1⟩) "abc" 2024 5 = none ∧
    parse_date_with_year (fun _ => some ⟨2000, 1, 1⟩) "ab/cd" 2024 5 = none := by
  have h := c5_date_resolver_totality (fun _ => some ⟨2000, 1, 1⟩) 2024 5
  exact ⟨h.2.2.2.1 "abc" (by decide) (by decide),
    h.2.2.2.2.1 "ab/cd" "ab" "cd" (by decide) (Or.inl (by decide))⟩

/-- Claim C6.  Hybrid merchant resolution: a lookup hit on the stripped
name returns that entry's data and never consults the regex rules (the
result is independent of the rule list); with no lookup hit and no matching
rule the result is the uncategorized marker with the stripped name (or the
raw name when stripping emptied it); with no lookup hit the regex fallback
returns the first matching rule of the (descending-priority) list. -/
theorem c6_merchant_hybrid_lookup (raw : String) (rules rulesB : List MerchantRule)
    (lookup : String → Option MInfo) (prefixes : List String) :
    (∀ info, lookup (pyStrip (stripChannelTag prefixes (pyStrip raw))) = some info →
      process_merchant_hybrid (some raw) rules lookup prefixes =
        (pyStrip (stripChannelTag prefixes (pyStrip raw)),
          info.category, info.subCategory, info.rfmExclusion) ∧
      process_merchant_hybrid (some raw) rules lookup prefixes =
        process_merchant_hybrid (some raw) rulesB lookup prefixes) ∧
    (lookup (pyStrip (stripChannelTag prefixes (pyStrip raw))) = none →
      (∀ ru ∈ rules, ru.matcher (pyStrip (stripChannelTag prefixes (pyStrip raw))) = false) →
      process_merchant_hybrid (some raw) rules lookup prefixes =
        (if pyStrip (stripChannelTag prefixes (pyStrip raw)) ≠ ""
          then pyStrip (stripChannelTag prefixes (pyStrip raw)) else raw,
          "Unknown", "", false)) ∧
    (∀ ru, lookup (pyStrip (stripChannelTag prefixes (pyStrip raw))) = none →
      rules.find? (fun x => x.matcher (pyStrip (stripChannelTag prefixes (pyStrip raw)))) =
        some ru →
      process_merchant_hybrid (some raw) rules lookup prefixes =
        (ru.name, ru.category, ru.subCategory, ru.rfmExclusion)) := by
  refine ⟨?_, ?_, ?_⟩
  · intro info hl
    simp only [process_merchant_hybrid]
    rw [hl]
    exact ⟨rfl, rfl⟩
  · intro hl hnone
    simp only [process_merchant_hybrid]
    rw [hl]
    have hfind : rules.find?
        (fun x => x.matcher (pyStrip (stripChannelTag prefixes (pyStrip raw)))) = none :=
      List.find?_eq_none.mpr (fun x hx => by simp [hnone x hx])
    rw [hfind]
  · intro ru hl hfind
    simp only [process_merchant_hybrid]
    rw [hl, hfind]

/-- Claim C6 witness: a concrete prefixed merchant string whose stripped
form is a lookup key resolves through the lookup table. -/
theorem c6_witness :
    process_merchant_hybrid (some "LINE Pay-STARBUCKS") [] c6Lookup ["LINE Pay-"] =
      ("STARBUCKS", "Coffee", "Chain", false) := by
  have h := ((c6_merchant_hybrid_lookup "LINE Pay-STARBUCKS" [] [] c6Lookup
    ["LINE Pay-"]).1 ⟨"STARBUCKS", "Coffee", "Chain", false⟩ (by rfl)).1
  exact h

/-- Claim C7, amended.  A null or empty token normalizes to the home
country code TW; otherwise the first SPACE-delimited token of the
uppercased stripped input (the source splits on the space character only,
not on arbitrary whitespace) is looked up in the fixed table, giving the
mapped 2-letter code on a hit; on a miss the token is returned verbatim
(whether or not it has exactly 2 characters). -/
theorem c7_space_token_normalization :
    normalize_country_code none = "TW" ∧
    (∀ s, pyStrip s = "" → normalize_country_code (some s) = "TW") ∧
    (∀ s, pyStrip s ≠ "" →
      normalize_country_code (some s) =
        (match List.lookup
            ((splitWhen (fun c => c == ' ') (strToUpper (pyStrip s))).headD "")
            countryMap with
         | some mapped => mapped
         | none =>
            (splitWhen (fun c => c == ' ') (strToUpper (pyStrip s))).headD "")) := by
  refine ⟨rfl, ?_, ?_⟩
  · intro s hs
    simp only [normalize_country_code]
    rw [if_pos hs]
  · intro s hs
    simp only [normalize_country_code]
    rw [if_neg hs]
    cases hm : List.lookup
        ((splitWhen (fun c => c == ' ') (strToUpper (pyStrip s))).headD "") countryMap with
    | none => simp
    | some m => rfl

/-- Claim C7, counterexample to the claim as stated: for a token whose
first whitespace-delimited token is JPN but whose delimiter is a tab, the
source does not split (it splits on the space character only) and returns
the token verbatim, not the mapped JP the whitespace reading predicts. -/
theorem c7_counterexample :
    normalize_country_code (some "JPN\tTOKYO") = "JPN\tTOKYO" ∧
    normalize_country_code_wsSpec (some "JPN\tTOKYO") = "JP" ∧
    ("JPN\tTOKYO" : String) ≠ "JP" := by
  decide

/-- Claim C7 witness: the specification's own example still holds (space
delimiter), and the null input maps to the home country. -/
theorem c7_witness :
    normalize_country_code (some "JPN CHIYODA-KU") = "JP" ∧
    normalize_country_code none = "TW" := by
  have h := c7_space_token_normalization
  refine ⟨?_, h.1⟩
  rw [h.2.2 "JPN CHIYODA-KU" (by decide)]
  decide

/-- Claim C8 is a code bug: the scan condition breaks only once the 0-based
line index EXCEEDS 50, so the code examines indices 0 through 50 — the
first 51 lines — while the specification (and the code's own comment)
allow at most the first 50 lines.  With the anchor keyword first occurring
on the 51st line (index 50) the code parses from that line, where the
specified 50-line window finds nothing and would fall back to line 0; an
anchor on the 52nd line is out of reach for both. -/
theorem c8_header_scan_off_by_one :
    smart_read_csv_route c8Lines "Anchor" = ReadRoute.fromLine 50 ∧
    scanHeaderIdxSpecWindow "Anchor" 0 c8Lines = none ∧
    smart_read_csv_route c8LinesLate "Anchor" = ReadRoute.fallbackFromStart := by
  refine ⟨by decide, by decide, by decide⟩

end CreditCardETL
